import Mathlib

/-!
Shallow embedding of the research-pipeline backend (`src/main.py`).

The program is a FastAPI service orchestrating three external capabilities
(web search via SerpAPI, article extraction via newspaper, summarization via
Gemini) plus a Firestore conversation store.  External calls are modelled as
oracles carried in an `Env` record; every function additionally returns the
list of external-capability calls it performed (`Event` trace), so that
"no external call occurs" properties are statable.
-/

namespace ResearchAgent

/-- Pydantic model `Source` (src/main.py lines 81-85). -/
structure Source where
  title : String
  url : String
  publish_date : Option String
  authors : List String
deriving DecidableEq, Repr

/-- Pydantic model `Message` (src/main.py lines 87-91).  `sources` defaults to `None`. -/
structure Message where
  id : String
  role : String
  content : String
  sources : Option (List Source)
deriving DecidableEq, Repr

/-- Pydantic model `Conversation` (src/main.py lines 93-97). -/
structure Conversation where
  id : String
  title : String
  messages : List Message
  createdAt : String
deriving DecidableEq, Repr

/-- Pydantic model `ConversationMeta` (src/main.py lines 99-101). -/
structure ConversationMeta where
  id : String
  title : String
deriving DecidableEq, Repr

/-- Result of a successful `newspaper.Article` download+parse: the fields the
pipeline reads (`text`, `title`, `publish_date`, `authors`).  `publish_date`
is modelled post-`str(...)` as an optional string. -/
structure Article where
  text : String
  title : String
  publish_date : Option String
  authors : List String
deriving DecidableEq, Repr

/-- One external-capability call performed by the pipeline. -/
inductive Event where
  | searchCall (query : String)
  | extractCall (url : String)
  | generateCall
  | storeSet (id : String)
deriving DecidableEq, Repr

/-- The process environment: which credentials are configured (`serpapi_api_key`,
`google_api_key`, `db`) and oracles giving the outcome of each external call.
`search` is the SerpAPI round trip (`Except.error` = raised exception),
`extract` is `Article(url).download(); parse()` (`none` = raised exception),
`generate` is the Gemini call on the prompt, and `store_set_ok` is whether the
Firestore `set` call succeeds (its outcome is ignored by the code). -/
structure Env where
  serpapi_api_key : Option String
  google_api_key : Option String
  db_configured : Bool
  store_set_ok : Bool
  search : String → Except Unit (List String)
  extract : String → Option Article
  generate : String → Except Unit String

/-- `HTTPException(status_code, detail)`. -/
structure HTTPException where
  status_code : Nat
  detail : String
deriving DecidableEq, Repr

/-- The fixed demo URL list returned by `search_the_web` when the SerpAPI key
is absent (src/main.py lines 113-116). -/
def demo_urls : List String :=
  ["https://en.wikipedia.org/wiki/Main_Page", "https://www.example.com"]

/-- `search_the_web` (src/main.py lines 108-125): demo URLs when the key is
missing; otherwise one SerpAPI call whose failure is absorbed into `[]`. -/
def search_the_web (env : Env) (query : String) : List String × List Event :=
  match env.serpapi_api_key with
  | none => (demo_urls, [])
  | some _ =>
    match env.search query with
    | Except.ok urls => (urls, [Event.searchCall query])
    | Except.error _ => ([], [Event.searchCall query])

/-- The sample combined content substituted in demo mode
(src/main.py lines 135-146, a triple-quoted literal). -/
def demo_sample_content : String :=
  "\n        --- SAMPLE CONTENT FOR DEMO ---\n" ++
  "        This is sample content that would normally be scraped from web sources.\n" ++
  "        In a real environment with proper API keys and internet access, this would contain\n" ++
  "        actual content from relevant web pages related to the user's query.\n" ++
  "        \n" ++
  "        The AI research agent would normally:\n" ++
  "        1. Search the web using SerpAPI\n" ++
  "        2. Scrape content from relevant pages\n" ++
  "        3. Process and summarize the information\n" ++
  "        4. Return a comprehensive response with sources\n" ++
  "        "

/-- The placeholder `Source` substituted in demo mode (src/main.py lines 147-152). -/
def demo_source : Source :=
  { title := "Demo Content"
    url := "https://example.com/demo"
    publish_date := none
    authors := ["Demo Author"] }

/-- The delimited block appended to the combined content for one successfully
extracted URL (src/main.py line 161). -/
def scrape_block (url : String) (a : Article) : String :=
  "--- CONTENT FROM " ++ url ++ " ---\n" ++ a.text ++ "\n\n"

/-- The `Source` record appended for one successfully extracted URL
(src/main.py lines 162-167). -/
def mkSource (url : String) (a : Article) : Source :=
  { title := a.title
    url := url
    publish_date := a.publish_date
    authors := a.authors }

/-- The per-URL loop of `scrape_and_process_urls` (src/main.py lines 155-169):
each URL is attempted independently; an exception (`none`) is logged and
skipped, a parse with empty `text` contributes nothing, a parse with non-empty
`text` appends its block and its `Source`. -/
def scrape_loop (env : Env) : List String → String → List Source →
    (String × List Source) × List Event
  | [], content, sources => ((content, sources), [])
  | url :: rest, content, sources =>
    let step : String × List Source :=
      match env.extract url with
      | none => (content, sources)
      | some a =>
        if a.text = "" then (content, sources)
        else (content ++ scrape_block url a, sources ++ [mkSource url a])
    let r := scrape_loop env rest step.1 step.2
    (r.1, Event.extractCall url :: r.2)

/-- `scrape_and_process_urls` (src/main.py lines 127-170): if the SerpAPI key
is missing and at most two URLs were passed (the demo-URL signal), substitute
the sample content and placeholder source without touching the network;
otherwise run the real per-URL loop. -/
def scrape_and_process_urls (env : Env) (urls : List String) :
    (String × List Source) × List Event :=
  if env.serpapi_api_key = none ∧ urls.length ≤ 2 then
    ((demo_sample_content, [demo_source]), [])
  else
    scrape_loop env urls "" []

/-- The fixed answer returned when there is nothing to summarize
(src/main.py line 175). -/
def no_content_message : String := "No content was scraped to summarize."

/-- The demo answer returned when the Google API key is missing
(src/main.py lines 178-193): embeds the query and the content length. -/
def demo_summary (query : String) (content : String) : String :=
  "**Demo Response for: \"" ++ query ++ "\"**\n\n" ++
  "⚠️ This is a demo response as the Google API key is not configured.\n\n" ++
  "Based on your query \"" ++ query ++ "\", here's what a typical response would look like:\n\n" ++
  "**Key Points:**\n" ++
  "- This is a placeholder response showing the expected format\n" ++
  "- The actual response would contain relevant information from web sources\n" ++
  "- AI-generated summaries would be provided here\n\n" ++
  "**To get real responses:**\n" ++
  "1. Configure your Google API key in the .env file\n" ++
  "2. Restart the backend service\n\n" ++
  "*Content length: " ++ toString content.length ++ " characters from scraped sources*"

/-- The Gemini prompt built from the combined content and the query
(src/main.py lines 195-203). -/
def gemini_prompt (content : String) (query : String) : String :=
  "\n    Based on the following web content, provide a clear and comprehensive answer to the user's query.\n" ++
  "    Instructions:\n" ++
  "    1. First, provide a direct, concise summary that immediately answers the user's question.\n" ++
  "    2. Then, create a section with bullet points detailing the most important findings, facts, or key takeaways.\n" ++
  "    3. Use Markdown for formatting (e.g., **bold**, *italics*, bullet points).\n" ++
  "    USER QUERY: \"" ++ query ++ "\"\n" ++
  "    COMBINED WEB CONTENT:\n" ++ content ++ "\n    "

/-- `summarize_content` (src/main.py lines 172-210): fixed message on empty
content, demo message when the Google key is missing, otherwise one Gemini
call whose failure is absorbed into a fixed fallback string. -/
def summarize_content (env : Env) (content : String) (query : String) :
    String × List Event :=
  if content = "" then (no_content_message, [])
  else
    match env.google_api_key with
    | none => (demo_summary query content, [])
    | some _ =>
      match env.generate (gemini_prompt content query) with
      | Except.ok text => (text, [Event.generateCall])
      | Except.error _ =>
        ("Failed to generate summary due to an AI model error.", [Event.generateCall])

/-- `create_conversation`, `POST /conversations` (src/main.py lines 261-301).
`query_field` is `request.get("query")` (`none` = key absent); the fresh
UUIDs and the timestamp are parameters since they are generated
nondeterministically.  The Firestore write is attempted only when the store
is configured and its outcome is discarded. -/
def create_conversation (env : Env) (query_field : Option String)
    (convo_id user_msg_id model_msg_id now : String) :
    Except HTTPException Conversation × List Event :=
  match query_field with
  | none => (Except.error ⟨400, "Query is required."⟩, [])
  | some query =>
    if query = "" then (Except.error ⟨400, "Query is required."⟩, [])
    else
      let s := search_the_web env query
      if s.1 = [] then
        (Except.error ⟨404, "No relevant web sources found for that query."⟩, s.2)
      else
        let p := scrape_and_process_urls env s.1
        if p.1.1 = "" then
          (Except.error ⟨500, "Could not extract content from any of the web sources."⟩,
           s.2 ++ p.2)
        else
          let sm := summarize_content env p.1.1 query
          let user_message : Message := ⟨user_msg_id, "user", query, none⟩
          let model_message : Message := ⟨model_msg_id, "model", sm.1, some p.1.2⟩
          let new_convo : Conversation := ⟨convo_id, query, [user_message, model_message], now⟩
          let store_events := if env.db_configured then [Event.storeSet convo_id] else []
          (Except.ok new_convo, s.2 ++ p.2 ++ sm.2 ++ store_events)

/-- One stored Firestore document as `get_all_conversations` reads it:
its id and the optional `"title"` field of `to_dict()`. -/
structure StoredDoc where
  id : String
  title : Option String
deriving DecidableEq, Repr

/-- `get_all_conversations`, `GET /conversations` (src/main.py lines 232-246).
The store handle is `none` when Firebase is not configured; `Except.error` is
a raised stream exception; otherwise one `{id, title}` projection per
document, defaulting the title to `"Untitled"`. -/
def get_all_conversations (db : Option (Except Unit (List StoredDoc))) :
    Except HTTPException (List ConversationMeta) :=
  match db with
  | none =>
    Except.error ⟨503, "Database service is not available. Please configure Firebase credentials."⟩
  | some (Except.error _) =>
    Except.error ⟨500, "Could not fetch conversations from the database."⟩
  | some (Except.ok docs) =>
    Except.ok (docs.map (fun d => ⟨d.id, d.title.getD "Untitled"⟩))

/-- Concatenation of a list of strings, used to state the shape of the
combined content built by the extraction loop. -/
def concat_strings : List String → String
  | [] => ""
  | b :: rest => b ++ concat_strings rest

/-- The content block contributed by one URL in the real-extraction path:
`none` when extraction raised an exception or yielded empty text. -/
def successful_block (env : Env) (u : String) : Option String :=
  match env.extract u with
  | none => none
  | some a => if a.text = "" then none else some (scrape_block u a)

/-- The `Source` record contributed by one URL in the real-extraction path:
`none` when extraction raised an exception or yielded empty text. -/
def successful_source (env : Env) (u : String) : Option Source :=
  match env.extract u with
  | none => none
  | some a => if a.text = "" then none else some (mkSource u a)

theorem scrape_loop_eq (env : Env) (urls : List String) :
    ∀ (c0 : String) (s0 : List Source),
      scrape_loop env urls c0 s0 =
        ((c0 ++ concat_strings (urls.filterMap (successful_block env)),
          s0 ++ urls.filterMap (successful_source env)),
         urls.map Event.extractCall) := by
  induction urls with
  | nil =>
    intro c0 s0
    simp [scrape_loop, concat_strings]
  | cons u rest ih =>
    intro c0 s0
    cases hx : env.extract u with
    | none =>
      simp [scrape_loop, hx, ih, successful_block, successful_source]
    | some a =>
      by_cases ht : a.text = ""
      · simp [scrape_loop, hx, ht, ih, successful_block, successful_source]
      · simp [scrape_loop, hx, ht, ih, successful_block, successful_source,
          concat_strings, String.append_assoc]

theorem search_trace (env : Env) (q : String) :
    (search_the_web env q).2 = [] ∨ (search_the_web env q).2 = [Event.searchCall q] := by
  unfold search_the_web
  cases env.serpapi_api_key with
  | none => exact Or.inl rfl
  | some k =>
    cases env.search q with
    | ok urls => exact Or.inr rfl
    | error e => exact Or.inr rfl

theorem scrape_trace (env : Env) (urls : List String) :
    (scrape_and_process_urls env urls).2 = [] ∨
    (scrape_and_process_urls env urls).2 = urls.map Event.extractCall := by
  unfold scrape_and_process_urls
  split
  · exact Or.inl rfl
  · rw [scrape_loop_eq]
    exact Or.inr rfl

theorem create_conversation_no_sources (env : Env) (q cid uid mid now : String)
    (hq : q ≠ "") (hu : (search_the_web env q).1 = []) :
    create_conversation env (some q) cid uid mid now =
      (Except.error ⟨404, "No relevant web sources found for that query."⟩,
       (search_the_web env q).2) := by
  unfold create_conversation
  simp [hq, hu]

theorem create_conversation_no_content (env : Env) (q cid uid mid now : String)
    (hq : q ≠ "") (hu : (search_the_web env q).1 ≠ [])
    (hc : ((scrape_and_process_urls env (search_the_web env q).1).1).1 = "") :
    create_conversation env (some q) cid uid mid now =
      (Except.error ⟨500, "Could not extract content from any of the web sources."⟩,
       (search_the_web env q).2 ++ (scrape_and_process_urls env (search_the_web env q).1).2) := by
  unfold create_conversation
  simp [hq, hu, hc]

theorem create_conversation_ok (env : Env) (q cid uid mid now : String)
    (hq : q ≠ "") (hu : (search_the_web env q).1 ≠ [])
    (hc : ((scrape_and_process_urls env (search_the_web env q).1).1).1 ≠ "") :
    create_conversation env (some q) cid uid mid now =
      (Except.ok
        ⟨cid, q,
         [⟨uid, "user", q, none⟩,
          ⟨mid, "model",
           (summarize_content env
             ((scrape_and_process_urls env (search_the_web env q).1).1).1 q).1,
           some ((scrape_and_process_urls env (search_the_web env q).1).1).2⟩],
         now⟩,
       (search_the_web env q).2 ++
         (scrape_and_process_urls env (search_the_web env q).1).2 ++
         (summarize_content env
           ((scrape_and_process_urls env (search_the_web env q).1).1).1 q).2 ++
         (if env.db_configured then [Event.storeSet cid] else [])) := by
  unfold create_conversation
  simp [hq, hu, hc]

/-- A fully unconfigured process: no SerpAPI key, no Google key, no store.
Oracles are irrelevant since no external call is reachable. -/
def envNoKeys : Env :=
  { serpapi_api_key := none
    google_api_key := none
    db_configured := false
    store_set_ok := true
    search := fun _ => Except.error ()
    extract := fun _ => none
    generate := fun _ => Except.error () }

/-- A process with a SerpAPI key whose search call returns zero results. -/
def envEmptySearch : Env :=
  { serpapi_api_key := some "serp-key"
    google_api_key := none
    db_configured := false
    store_set_ok := true
    search := fun _ => Except.ok []
    extract := fun _ => none
    generate := fun _ => Except.error () }

/-- A fully configured process where every per-URL extraction raises. -/
def envFailExtract : Env :=
  { serpapi_api_key := some "serp-key"
    google_api_key := some "google-key"
    db_configured := false
    store_set_ok := true
    search := fun _ => Except.ok ["https://one.example"]
    extract := fun _ => none
    generate := fun _ => Except.ok "a summary" }

/-- The `Conversation` produced by `envNoKeys` on query `"hi"` with fixed
ids and timestamp. -/
def convNoKeys : Conversation :=
  ⟨"cid", "hi",
   [⟨"uid", "user", "hi", none⟩,
    ⟨"mid", "model", demo_summary "hi" demo_sample_content, some [demo_source]⟩],
   "now"⟩

/-- Claim C1: for every non-empty query on which the pipeline succeeds,
`create_conversation` returns a `Conversation` titled with the query holding
exactly two messages in order: the user message carrying the query, then the
model message carrying the summarizer's answer and the extracted sources. -/
theorem create_conversation_success_shape (env : Env) (q cid uid mid now : String)
    (c : Conversation)
    (h : (create_conversation env (some q) cid uid mid now).1 = Except.ok c) :
    c.title = q ∧
    c.messages =
      [⟨uid, "user", q, none⟩,
       ⟨mid, "model",
        (summarize_content env
          ((scrape_and_process_urls env (search_the_web env q).1).1).1 q).1,
        some ((scrape_and_process_urls env (search_the_web env q).1).1).2⟩] := by
  by_cases hq : q = ""
  · rw [hq] at h
    simp [create_conversation] at h
  · by_cases hu : (search_the_web env q).1 = []
    · rw [create_conversation_no_sources env q cid uid mid now hq hu] at h
      simp at h
    · by_cases hc : ((scrape_and_process_urls env (search_the_web env q).1).1).1 = ""
      · rw [create_conversation_no_content env q cid uid mid now hq hu hc] at h
        simp at h
      · rw [create_conversation_ok env q cid uid mid now hq hu hc] at h
        simp at h
        rw [← h]
        exact ⟨rfl, rfl⟩

/-- Witness for C1: the unconfigured demo pipeline on query `"hi"`. -/
theorem create_conversation_success_shape_witness :
    (create_conversation envNoKeys (some "hi") "cid" "uid" "mid" "now").1 =
      Except.ok convNoKeys ∧
    (convNoKeys.title = "hi" ∧
     convNoKeys.messages =
      [⟨"uid", "user", "hi", none⟩,
       ⟨"mid", "model",
        (summarize_content envNoKeys
          ((scrape_and_process_urls envNoKeys (search_the_web envNoKeys "hi").1).1).1 "hi").1,
        some ((scrape_and_process_urls envNoKeys (search_the_web envNoKeys "hi").1).1).2⟩]) :=
  ⟨rfl, create_conversation_success_shape envNoKeys "hi" "cid" "uid" "mid" "now" convNoKeys rfl⟩

/-- Claim C6: a request with a missing or empty `query` fails with HTTP 400
and performs no external call at all. -/
theorem create_conversation_rejects_empty_query (env : Env)
    (query_field : Option String) (cid uid mid now : String)
    (h : query_field = none ∨ query_field = some "") :
    create_conversation env query_field cid uid mid now =
      (Except.error ⟨400, "Query is required."⟩, []) := by
  rcases h with h | h <;> rw [h] <;> rfl

/-- Witness for C6: the missing-`query` request. -/
theorem create_conversation_rejects_empty_query_witness :
    create_conversation envFailExtract none "cid" "uid" "mid" "now" =
      (Except.error ⟨400, "Query is required."⟩, []) :=
  create_conversation_rejects_empty_query envFailExtract none "cid" "uid" "mid" "now"
    (Or.inl rfl)

/-- Claim C2: if the web search step yields zero candidate URLs, the request
fails with HTTP 404 and neither extraction nor summarization is attempted. -/
theorem create_conversation_404_when_no_urls (env : Env) (q cid uid mid now : String)
    (hq : q ≠ "") (hu : (search_the_web env q).1 = []) :
    (create_conversation env (some q) cid uid mid now).1 =
      Except.error ⟨404, "No relevant web sources found for that query."⟩ ∧
    (∀ u, Event.extractCall u ∉ (create_conversation env (some q) cid uid mid now).2) ∧
    Event.generateCall ∉ (create_conversation env (some q) cid uid mid now).2 := by
  rw [create_conversation_no_sources env q cid uid mid now hq hu]
  refine ⟨rfl, ?_, ?_⟩
  · intro u
    rcases search_trace env q with h | h <;> rw [h] <;> simp
  · rcases search_trace env q with h | h <;> rw [h] <;> simp

/-- Witness for C2: a configured search client returning zero results. -/
theorem create_conversation_404_when_no_urls_witness :
    (create_conversation envEmptySearch (some "hi") "cid" "uid" "mid" "now").1 =
      Except.error ⟨404, "No relevant web sources found for that query."⟩ ∧
    Event.extractCall "https://one.example" ∉
      (create_conversation envEmptySearch (some "hi") "cid" "uid" "mid" "now").2 ∧
    Event.generateCall ∉
      (create_conversation envEmptySearch (some "hi") "cid" "uid" "mid" "now").2 :=
  ⟨(create_conversation_404_when_no_urls envEmptySearch "hi" "cid" "uid" "mid" "now"
      (by decide) rfl).1,
   (create_conversation_404_when_no_urls envEmptySearch "hi" "cid" "uid" "mid" "now"
      (by decide) rfl).2.1 "https://one.example",
   (create_conversation_404_when_no_urls envEmptySearch "hi" "cid" "uid" "mid" "now"
      (by decide) rfl).2.2⟩

/-- Claim C3: if the combined text after extraction is empty, the request
fails with HTTP 500 and the summarizer is never invoked. -/
theorem create_conversation_500_when_no_content (env : Env) (q cid uid mid now : String)
    (hq : q ≠ "") (hu : (search_the_web env q).1 ≠ [])
    (hc : ((scrape_and_process_urls env (search_the_web env q).1).1).1 = "") :
    (create_conversation env (some q) cid uid mid now).1 =
      Except.error ⟨500, "Could not extract content from any of the web sources."⟩ ∧
    Event.generateCall ∉ (create_conversation env (some q) cid uid mid now).2 := by
  rw [create_conversation_no_content env q cid uid mid now hq hu hc]
  refine ⟨rfl, ?_⟩
  simp only [List.mem_append, not_or]
  constructor
  · rcases search_trace env q with h | h <;> rw [h] <;> simp
  · rcases scrape_trace env (search_the_web env q).1 with h | h <;> rw [h] <;> simp

/-- Witness for C3: one search result whose extraction raises, leaving the
combined text empty. -/
theorem create_conversation_500_when_no_content_witness :
    (create_conversation envFailExtract (some "hi") "cid" "uid" "mid" "now").1 =
      Except.error ⟨500, "Could not extract content from any of the web sources."⟩ ∧
    Event.generateCall ∉
      (create_conversation envFailExtract (some "hi") "cid" "uid" "mid" "now").2 :=
  create_conversation_500_when_no_content envFailExtract "hi" "cid" "uid" "mid" "now"
    (by decide) (by decide) rfl

theorem search_the_web_congr (env env' : Env)
    (hs : env'.serpapi_api_key = env.serpapi_api_key)
    (hse : env'.search = env.search) :
    search_the_web env' = search_the_web env := by
  funext q
  unfold search_the_web
  rw [hs, hse]

theorem successful_block_congr (env env' : Env) (hx : env'.extract = env.extract) :
    successful_block env' = successful_block env := by
  funext u
  unfold successful_block
  rw [hx]

theorem successful_source_congr (env env' : Env) (hx : env'.extract = env.extract) :
    successful_source env' = successful_source env := by
  funext u
  unfold successful_source
  rw [hx]

theorem scrape_and_process_urls_congr (env env' : Env)
    (hs : env'.serpapi_api_key = env.serpapi_api_key)
    (hx : env'.extract = env.extract) :
    scrape_and_process_urls env' = scrape_and_process_urls env := by
  funext urls
  unfold scrape_and_process_urls
  rw [hs]
  congr 1
  rw [scrape_loop_eq, scrape_loop_eq,
    successful_block_congr env env' hx, successful_source_congr env env' hx]

theorem summarize_content_congr (env env' : Env)
    (hg : env'.google_api_key = env.google_api_key)
    (hge : env'.generate = env.generate) :
    summarize_content env' = summarize_content env := by
  funext content q
  unfold summarize_content
  rw [hg, hge]

/-- Claim C7: once the pipeline has produced a summary, the Conversation is
returned to the caller regardless of persistence: any environment agreeing on
the pipeline capabilities — its store configuration and store-write outcome
being arbitrary (unconfigured, failing, or succeeding) — produces the same
successful response, so a persistence error never fails the request. -/
theorem create_conversation_ignores_store_outcome (env env' : Env)
    (hs : env'.serpapi_api_key = env.serpapi_api_key)
    (hg : env'.google_api_key = env.google_api_key)
    (hse : env'.search = env.search)
    (hx : env'.extract = env.extract)
    (hge : env'.generate = env.generate)
    (q cid uid mid now : String)
    (hq : q ≠ "") (hu : (search_the_web env q).1 ≠ [])
    (hc : ((scrape_and_process_urls env (search_the_web env q).1).1).1 ≠ "") :
    (create_conversation env' (some q) cid uid mid now).1 =
      Except.ok
        ⟨cid, q,
         [⟨uid, "user", q, none⟩,
          ⟨mid, "model",
           (summarize_content env
             ((scrape_and_process_urls env (search_the_web env q).1).1).1 q).1,
           some ((scrape_and_process_urls env (search_the_web env q).1).1).2⟩],
         now⟩ := by
  have h1 := search_the_web_congr env env' hs hse
  have h2 := scrape_and_process_urls_congr env env' hs hx
  have h3 := summarize_content_congr env env' hg hge
  have hu' : (search_the_web env' q).1 ≠ [] := by rw [h1]; exact hu
  have hc' : ((scrape_and_process_urls env' (search_the_web env' q).1).1).1 ≠ "" := by
    rw [h1, h2]; exact hc
  rw [create_conversation_ok env' q cid uid mid now hq hu' hc', h1, h2, h3]

/-- The unconfigured-pipeline environment with a configured store whose write
fails: identical to `envNoKeys` on every capability the pipeline reads. -/
def envNoKeysStoreFail : Env :=
  { serpapi_api_key := none
    google_api_key := none
    db_configured := true
    store_set_ok := false
    search := fun _ => Except.error ()
    extract := fun _ => none
    generate := fun _ => Except.error () }

/-- Witness for C7: the demo pipeline with a configured store whose write fails. -/
theorem create_conversation_ignores_store_outcome_witness :
    (create_conversation envNoKeysStoreFail (some "hi") "cid" "uid" "mid" "now").1 =
      Except.ok
        ⟨"cid", "hi",
         [⟨"uid", "user", "hi", none⟩,
          ⟨"mid", "model",
           (summarize_content envNoKeys
             ((scrape_and_process_urls envNoKeys (search_the_web envNoKeys "hi").1).1).1 "hi").1,
           some ((scrape_and_process_urls envNoKeys (search_the_web envNoKeys "hi").1).1).2⟩],
         "now"⟩ :=
  create_conversation_ignores_store_outcome envNoKeys envNoKeysStoreFail
    rfl rfl rfl rfl rfl "hi" "cid" "uid" "mid" "now"
    (by decide) (by decide) (by decide)

/-- Counterexample for C4 as stated: with the search credential absent,
`scrape_and_process_urls` substitutes the placeholder for a single-URL list
that is not the demo-mode list, so substitution is not triggered exactly by
the demo-mode list. -/
theorem demo_substitution_cex :
    scrape_and_process_urls envNoKeys ["https://www.example.com"] =
      ((demo_sample_content, [demo_source]), []) ∧
    ["https://www.example.com"] ≠ demo_urls :=
  ⟨rfl, by decide⟩

/-- Claim C4 (amended): with the search credential absent, `search_the_web`
returns the fixed demo URL list; and `scrape_and_process_urls` substitutes the
fixed placeholder source and placeholder text, performing no extraction call,
exactly when the credential is absent and the URL list has at most two
entries (which the demo-mode list satisfies) — otherwise it attempts real
extraction on every URL. -/
theorem demo_substitution_exactly_when (env : Env) (q : String) (urls : List String) :
    (env.serpapi_api_key = none → (search_the_web env q).1 = demo_urls) ∧
    (env.serpapi_api_key = none ∧ urls.length ≤ 2 →
      scrape_and_process_urls env urls = ((demo_sample_content, [demo_source]), [])) ∧
    (¬(env.serpapi_api_key = none ∧ urls.length ≤ 2) →
      (scrape_and_process_urls env urls).2 = urls.map Event.extractCall) := by
  refine ⟨?_, ?_, ?_⟩
  · intro h
    unfold search_the_web
    rw [h]
  · intro h
    unfold scrape_and_process_urls
    rw [if_pos h]
  · intro h
    unfold scrape_and_process_urls
    rw [if_neg h, scrape_loop_eq]

/-- Witness for C4: the demo list triggers substitution; a three-URL list with
the credential absent does not. -/
theorem demo_substitution_exactly_when_witness :
    (search_the_web envNoKeys "query").1 = demo_urls ∧
    scrape_and_process_urls envNoKeys demo_urls = ((demo_sample_content, [demo_source]), []) ∧
    (scrape_and_process_urls envNoKeys
      ["https://a.example", "https://b.example", "https://c.example"]).2 =
      ["https://a.example", "https://b.example", "https://c.example"].map Event.extractCall :=
  ⟨(demo_substitution_exactly_when envNoKeys "query" demo_urls).1 rfl,
   (demo_substitution_exactly_when envNoKeys "query" demo_urls).2.1 ⟨rfl, by decide⟩,
   (demo_substitution_exactly_when envNoKeys "query"
      ["https://a.example", "https://b.example", "https://c.example"]).2.2 (by decide)⟩

theorem string_eq_empty_of_length_eq_zero (s : String) (h : s.length = 0) : s = "" := by
  cases s with
  | mk data =>
    have hd : data = [] := List.length_eq_zero.mp h
    rw [hd]

theorem scrape_block_ne_empty (u : String) (a : Article) : scrape_block u a ≠ "" := by
  intro h
  have hlen := congrArg String.length h
  simp only [scrape_block, String.length_append] at hlen
  have h17 : ("--- CONTENT FROM " : String).length = 17 := rfl
  have h0 : ("" : String).length = 0 := rfl
  rw [h17, h0] at hlen
  omega

theorem concat_strings_eq_empty_iff (bs : List String) (hb : ∀ b ∈ bs, b ≠ "") :
    concat_strings bs = "" ↔ bs = [] := by
  cases bs with
  | nil => simp [concat_strings]
  | cons b rest =>
    simp only [concat_strings]
    constructor
    · intro h
      exfalso
      have hlen := congrArg String.length h
      rw [String.length_append] at hlen
      have h0 : ("" : String).length = 0 := rfl
      rw [h0] at hlen
      have hb0 : b ≠ "" := hb b (by simp)
      exact hb0 (string_eq_empty_of_length_eq_zero b (by omega))
    · intro h
      exact absurd h (by simp)

/-- Claim C5: per-URL extraction failure is isolated — in the real-extraction
path, when every successful extraction carries non-empty text, the returned
sources and combined text come from exactly the URLs whose extraction
succeeded, in input order. -/
theorem scrape_isolates_failures (env : Env) (urls : List String)
    (hreal : ¬(env.serpapi_api_key = none ∧ urls.length ≤ 2))
    (hne : ∀ u a, env.extract u = some a → a.text ≠ "") :
    ((scrape_and_process_urls env urls).1).2 =
      urls.filterMap (fun u => (env.extract u).map (mkSource u)) ∧
    ((scrape_and_process_urls env urls).1).1 =
      concat_strings (urls.filterMap (fun u => (env.extract u).map (scrape_block u))) := by
  have hsrc : successful_source env = fun u => (env.extract u).map (mkSource u) := by
    funext u
    unfold successful_source
    cases h : env.extract u with
    | none => rfl
    | some a => simp [hne u a h]
  have hblk : successful_block env = fun u => (env.extract u).map (scrape_block u) := by
    funext u
    unfold successful_block
    cases h : env.extract u with
    | none => rfl
    | some a => simp [hne u a h]
  unfold scrape_and_process_urls
  rw [if_neg hreal, scrape_loop_eq env urls "" [], hsrc, hblk]
  exact ⟨by simp, by simp [String.empty_append]⟩

/-- A three-URL search-result list whose middle URL fails to extract. -/
def urlsThree : List String :=
  ["https://one.example", "https://two.example", "https://three.example"]

/-- A configured environment where the second of three URLs raises during
extraction and the other two parse into fixed non-empty text. -/
def envMiddleFails : Env :=
  { serpapi_api_key := some "serp-key"
    google_api_key := none
    db_configured := false
    store_set_ok := true
    search := fun _ => Except.ok urlsThree
    extract := fun u =>
      if u = "https://two.example" then none
      else some ⟨"Extracted text.", "A Title", none, []⟩
    generate := fun _ => Except.error () }

theorem envMiddleFails_extract_nonempty :
    ∀ u a, envMiddleFails.extract u = some a → a.text ≠ "" := by
  intro u a h
  unfold envMiddleFails at h
  simp only at h
  by_cases hu : u = "https://two.example"
  · rw [if_pos hu] at h
    exact absurd h (by simp)
  · rw [if_neg hu] at h
    have : a = ⟨"Extracted text.", "A Title", none, []⟩ := (Option.some.injEq _ _ ▸ h).symm
    rw [this]
    decide

/-- Witness for C5: three URLs where the second fails — sources and content
come from the first and third only. -/
theorem scrape_isolates_failures_witness :
    ((scrape_and_process_urls envMiddleFails urlsThree).1).2 =
      urlsThree.filterMap (fun u => (envMiddleFails.extract u).map (mkSource u)) ∧
    ((scrape_and_process_urls envMiddleFails urlsThree).1).1 =
      concat_strings
        (urlsThree.filterMap (fun u => (envMiddleFails.extract u).map (scrape_block u))) :=
  scrape_isolates_failures envMiddleFails urlsThree (by decide)
    envMiddleFails_extract_nonempty

/-- Claim C8: in the real-extraction path, when every successful extraction
carries non-empty text, the combined text is the concatenation, in input-URL
order over the successfully extracted URLs, of blocks consisting of the line
`--- CONTENT FROM <url> ---` followed by that URL's text and a blank line. -/
theorem scrape_combined_text_format (env : Env) (urls : List String)
    (hreal : ¬(env.serpapi_api_key = none ∧ urls.length ≤ 2))
    (hne : ∀ u a, env.extract u = some a → a.text ≠ "") :
    ((scrape_and_process_urls env urls).1).1 =
      concat_strings (urls.filterMap (fun u => (env.extract u).map
        (fun a => "--- CONTENT FROM " ++ u ++ " ---\n" ++ a.text ++ "\n\n"))) := by
  have hblk : successful_block env = fun u => (env.extract u).map
      (fun a => "--- CONTENT FROM " ++ u ++ " ---\n" ++ a.text ++ "\n\n") := by
    funext u
    unfold successful_block scrape_block
    cases h : env.extract u with
    | none => rfl
    | some a => simp [hne u a h]
  unfold scrape_and_process_urls
  rw [if_neg hreal, scrape_loop_eq env urls "" [], hblk]
  simp [String.empty_append]

/-- Witness for C8: the three-URL run with a failing middle URL. -/
theorem scrape_combined_text_format_witness :
    ((scrape_and_process_urls envMiddleFails urlsThree).1).1 =
      concat_strings (urlsThree.filterMap (fun u => (envMiddleFails.extract u).map
        (fun a => "--- CONTENT FROM " ++ u ++ " ---\n" ++ a.text ++ "\n\n"))) :=
  scrape_combined_text_format envMiddleFails urlsThree (by decide)
    envMiddleFails_extract_nonempty

theorem successful_block_none_iff (env : Env) (u : String) :
    successful_block env u = none ↔ successful_source env u = none := by
  unfold successful_block successful_source
  cases env.extract u with
  | none => simp
  | some a => by_cases h : a.text = "" <;> simp [h]

theorem scrape_blocks_ne_empty (env : Env) (urls : List String) :
    ∀ b ∈ urls.filterMap (successful_block env), b ≠ "" := by
  intro b hb
  rw [List.mem_filterMap] at hb
  obtain ⟨u, hu, hsome⟩ := hb
  unfold successful_block at hsome
  revert hsome
  cases hx : env.extract u with
  | none => intro hsome; exact absurd hsome (by simp)
  | some a =>
    intro hsome
    by_cases ht : a.text = ""
    · simp [ht] at hsome
    · simp [ht] at hsome
      rw [← hsome]
      exact scrape_block_ne_empty u a

/-- Claim C9: invariant of the real-extraction path — a `Source` is recorded
for a URL exactly when its extraction succeeded with non-empty text, and
consequently the combined text is empty iff the sources list is empty. -/
theorem scrape_sources_iff_nonempty_text (env : Env) (urls : List String)
    (hreal : ¬(env.serpapi_api_key = none ∧ urls.length ≤ 2)) :
    ((scrape_and_process_urls env urls).1).2 =
      urls.filterMap (fun u =>
        match env.extract u with
        | none => none
        | some a => if a.text = "" then none else some (mkSource u a)) ∧
    (((scrape_and_process_urls env urls).1).1 = "" ↔
      ((scrape_and_process_urls env urls).1).2 = []) := by
  unfold scrape_and_process_urls
  rw [if_neg hreal, scrape_loop_eq env urls "" []]
  constructor
  · simp only [List.nil_append]
    rfl
  · simp only [String.empty_append, List.nil_append]
    rw [concat_strings_eq_empty_iff _ (scrape_blocks_ne_empty env urls),
      List.filterMap_eq_nil_iff, List.filterMap_eq_nil_iff]
    constructor
    · intro h u hu
      exact (successful_block_none_iff env u).mp (h u hu)
    · intro h u hu
      exact (successful_block_none_iff env u).mpr (h u hu)

/-- An environment for exercising C9: among three URLs, the first succeeds
with empty text, the second raises, the third succeeds with non-empty text. -/
def envEmptyText : Env :=
  { serpapi_api_key := some "serp-key"
    google_api_key := none
    db_configured := false
    store_set_ok := true
    search := fun _ => Except.ok urlsThree
    extract := fun u =>
      if u = "https://one.example" then some ⟨"", "Empty Body", none, []⟩
      else if u = "https://two.example" then none
      else some ⟨"Body text.", "A Title", none, []⟩
    generate := fun _ => Except.error () }

/-- Witness for C9: the mixed empty-text/failure/success run. -/
theorem scrape_sources_iff_nonempty_text_witness :
    ((scrape_and_process_urls envEmptyText urlsThree).1).2 =
      urlsThree.filterMap (fun u =>
        match envEmptyText.extract u with
        | none => none
        | some a => if a.text = "" then none else some (mkSource u a)) ∧
    (((scrape_and_process_urls envEmptyText urlsThree).1).1 = "" ↔
      ((scrape_and_process_urls envEmptyText urlsThree).1).2 = []) :=
  scrape_sources_iff_nonempty_text envEmptyText urlsThree (by decide)

/-- Claim C10: with the store configured and streaming successfully,
`get_all_conversations` returns one `{id, title}` projection per stored
record in store-returned order, substituting `"Untitled"` for a record
lacking a title rather than failing or omitting the record. -/
theorem get_all_conversations_projects_each_record (docs : List StoredDoc)
    (i : Nat) (d : StoredDoc) (hd : docs[i]? = some d) :
    ∃ metas : List ConversationMeta,
      get_all_conversations (some (Except.ok docs)) = Except.ok metas ∧
      metas.length = docs.length ∧
      metas[i]? = some ⟨d.id, d.title.getD "Untitled"⟩ := by
  refine ⟨docs.map (fun d => ConversationMeta.mk d.id (d.title.getD "Untitled")), ?_, ?_, ?_⟩
  · rfl
  · simp
  · rw [List.getElem?_map, hd]
    rfl

/-- Two stored records, the second lacking a title field. -/
def docsTwo : List StoredDoc := [⟨"conv-a", some "First"⟩, ⟨"conv-b", none⟩]

/-- Witness for C10: the title-less second record is listed as `"Untitled"`. -/
theorem get_all_conversations_projects_each_record_witness :
    ∃ metas : List ConversationMeta,
      get_all_conversations (some (Except.ok docsTwo)) = Except.ok metas ∧
      metas.length = docsTwo.length ∧
      metas[1]? = some ⟨"conv-b", "Untitled"⟩ :=
  get_all_conversations_projects_each_record docsTwo 1 ⟨"conv-b", none⟩ rfl

end ResearchAgent
